import Mathlib

/-!
The file `mouse.c` of vinspect: a Lua binding over the ncurses mouse interface.

`src/mouse.c` defines four C functions, `l_init`, `l_close`, `l_get_coords`
and `luaopen_vinspect_mouse`.  They call three ncurses functions
(`mousemask`, `mouseinterval`, `getmouse`) and four Lua C API functions
(`lua_newtable`, `lua_pushinteger`, `lua_pushcfunction`, `lua_setfield`).

The embedding below keeps the two collaborators apart from the code:

* the ncurses calls are the fields of `Curses σ`, an interface over an
  arbitrary driver state `σ`; the three functions that use them are written
  once, over any implementation of that interface;
* `ncurses : Curses Driver` is a concrete, executable model of the driver,
  written after `<ncurses.h>`, the manual page curs_mouse(3X) and the
  behaviour of ncurses 6.4;
* the Lua state is a stack of values plus a heap of tables.
-/

namespace Vinspect

/-! ## Constants of `<ncurses.h>` (NCURSES_MOUSE_VERSION 2) -/

/-- The macro `NCURSES_MOUSE_MASK(b,m)`, that is `(m) << (((b) - 1) * 5)`. -/
def NCURSES_MOUSE_MASK (b m : Nat) : Nat := m <<< ((b - 1) * 5)

/-- The constant `NCURSES_BUTTON_RELEASED`, `001L`. -/
def NCURSES_BUTTON_RELEASED : Nat := 0o001

/-- The constant `NCURSES_BUTTON_PRESSED`, `002L`. -/
def NCURSES_BUTTON_PRESSED : Nat := 0o002

/-- The constant `NCURSES_BUTTON_CLICKED`, `004L`. -/
def NCURSES_BUTTON_CLICKED : Nat := 0o004

/-- The constant `NCURSES_DOUBLE_CLICKED`, `010L`. -/
def NCURSES_DOUBLE_CLICKED : Nat := 0o010

/-- The constant `NCURSES_TRIPLE_CLICKED`, `020L`. -/
def NCURSES_TRIPLE_CLICKED : Nat := 0o020

/-- The event mask `BUTTON1_RELEASED`. -/
def BUTTON1_RELEASED : Nat := NCURSES_MOUSE_MASK 1 NCURSES_BUTTON_RELEASED

/-- The event mask `BUTTON1_PRESSED`. -/
def BUTTON1_PRESSED : Nat := NCURSES_MOUSE_MASK 1 NCURSES_BUTTON_PRESSED

/-- The modifier bit `BUTTON_SHIFT`. -/
def BUTTON_SHIFT : Nat := NCURSES_MOUSE_MASK 6 0o002

/-- The bit `REPORT_MOUSE_POSITION`. -/
def REPORT_MOUSE_POSITION : Nat := NCURSES_MOUSE_MASK 6 0o010

/-- The mask `ALL_MOUSE_EVENTS`, `(REPORT_MOUSE_POSITION - 1)`. -/
def ALL_MOUSE_EVENTS : Nat := REPORT_MOUSE_POSITION - 1

/-- The key code `KEY_MOUSE`, octal `0631`. -/
def KEY_MOUSE : Int := 0o631

/-- The return code `OK`. -/
def OK : Int := 0

/-- The return code `ERR`. -/
def ERR : Int := -1

/-- The `id` of a record that holds no event, `INVALID_EVENT` of ncurses. -/
def INVALID_EVENT : Int := -1

/-- The number of mouse buttons, `MAX_BUTTONS` of ncurses with
NCURSES_MOUSE_VERSION 2. -/
def MAX_BUTTONS : Nat := 5

/-- The click interval a screen starts with: one sixth of a second, in
milliseconds (curs_mouse(3X), `mouseinterval`). -/
def DEFAULT_MAXCLICK : Int := 166

/-- The record `MEVENT` of `<ncurses.h>`: `short id; int x, y, z; mmask_t bstate;`. -/
structure MEVENT where
  id : Int
  x : Int
  y : Int
  z : Int
  bstate : Nat
deriving DecidableEq, Repr

/-! ## The ncurses calls the binding makes -/

/-- The three ncurses entry points used by `mouse.c`, over a driver state `σ`.
Each takes the state before the call and gives the state after it together
with the C return value.  `getmouse` also takes the contents of the record its
argument points to before the call and gives its contents after the call. -/
structure Curses (σ : Type) where
  mousemask : Nat → σ → σ × Nat
  mouseinterval : Int → σ → σ × Int
  getmouse : MEVENT → σ → σ × Int × MEVENT

/-- State of the mouse subsystem of a curses screen.

* `noMouse interval`: the mouse driver cannot be initialised (the terminal
  has no mouse support).  No event is ever reported: the event mask is 0 and
  there is no event queue.
* `idle interval`: the terminal supports a mouse and its driver has not been
  initialised yet, which the first `mousemask` call with a mask other than 0
  does.  The event mask is 0 and there is no event queue.
* `mouse mask interval queue`: an initialised mouse driver with its event
  mask, its click interval and the queued events, the one `getmouse` looks at
  first at the head (the most recently queued one). -/
inductive Driver where
  | noMouse (interval : Int)
  | idle (interval : Int)
  | mouse (mask : Nat) (interval : Int) (queue : List MEVENT)
deriving DecidableEq, Repr

namespace Driver

/-- The event mask in force: the events the driver reports. -/
def eventMask : Driver → Nat
  | noMouse _ => 0
  | idle _ => 0
  | mouse mask _ _ => mask

/-- The click interval in force. -/
def clickInterval : Driver → Int
  | noMouse interval => interval
  | idle interval => interval
  | mouse _ interval _ => interval

/-- The pending mouse events. -/
def pending : Driver → List MEVENT
  | noMouse _ => []
  | idle _ => []
  | mouse _ _ queue => queue

end Driver

/-- The driver's default mouse configuration: no event reported and the
default click interval. -/
def isDefaultConfig (d : Driver) : Prop :=
  d.eventMask = 0 ∧ d.clickInterval = DEFAULT_MAXCLICK

instance (d : Driver) : Decidable (isDefaultConfig d) := by
  unfold isDefaultConfig; infer_instance

/-- Model of `mousemask(newmask, NULL)`, for `newmask` an `mmask_t`.  With a
mouse driver that is initialised, or that this call initialises (a mask other
than 0 on a terminal with mouse support), the mask becomes the reportable part
of `newmask`, which is also the return value, and the queue is kept.  Without
mouse support the call fails: it returns 0 and changes nothing.  A failing
call therefore always finds, and leaves, an event mask of 0. -/
def ncurses_mousemask (newmask : Nat) : Driver → Driver × Nat
  | .noMouse interval => (.noMouse interval, 0)
  | .idle interval =>
    if newmask = 0 then (.idle interval, 0)
    else
      let result := newmask &&& (ALL_MOUSE_EVENTS ||| REPORT_MOUSE_POSITION)
      (.mouse result interval [], result)
  | .mouse _ interval queue =>
    let result := newmask &&& (ALL_MOUSE_EVENTS ||| REPORT_MOUSE_POSITION)
    (.mouse result interval queue, result)

/-- Model of `mouseinterval(erval)`: returns the previous interval and, when
`erval` is not negative, sets the interval to it. -/
def ncurses_mouseinterval (erval : Int) : Driver → Driver × Int
  | .noMouse interval => (.noMouse (if 0 ≤ erval then erval else interval), interval)
  | .idle interval => (.idle (if 0 ≤ erval then erval else interval), interval)
  | .mouse mask interval queue =>
    (.mouse mask (if 0 ≤ erval then erval else interval) queue, interval)

/-- One round of the loop by which ncurses widens the event mask for button
`b`: a triple click needs the double click, a double click the click, a click
the press and the release. -/
def mouse_mask2_button (mask2 b : Nat) : Nat :=
  let m1 := if mask2 &&& NCURSES_MOUSE_MASK b NCURSES_TRIPLE_CLICKED ≠ 0
    then mask2 ||| NCURSES_MOUSE_MASK b NCURSES_DOUBLE_CLICKED else mask2
  let m2 := if m1 &&& NCURSES_MOUSE_MASK b NCURSES_DOUBLE_CLICKED ≠ 0
    then m1 ||| NCURSES_MOUSE_MASK b NCURSES_BUTTON_CLICKED else m1
  if m2 &&& NCURSES_MOUSE_MASK b NCURSES_BUTTON_CLICKED ≠ 0
    then m2 ||| (NCURSES_MOUSE_MASK b NCURSES_BUTTON_PRESSED
      ||| NCURSES_MOUSE_MASK b NCURSES_BUTTON_RELEASED)
    else m2

/-- The mask `getmouse` filters with: the event mask, widened for each button
by the events out of which the asked ones are built. -/
def mouse_mask2 (mask : Nat) : Nat :=
  (List.range' 1 MAX_BUTTONS).foldl mouse_mask2_button mask

/-- The test `ValidEvent` of ncurses: the record holds an event. -/
def ValidEvent (ev : MEVENT) : Bool := ev.id != INVALID_EVENT

/-- The loop at the start of `getmouse`: events that share no bit with `mask2`
are thrown away, up to the first event that shares one or the first record
that holds no event. -/
def discardUnmatched (mask2 : Nat) : List MEVENT → List MEVENT
  | [] => []
  | e :: queue =>
    if ValidEvent e && (e.bstate &&& mask2 == 0) then discardUnmatched mask2 queue
    else e :: queue

/-- Model of `getmouse(&event)`.  Without an initialised mouse driver it
returns `ERR` and leaves the record with the contents `event` it had.  With
one, it first throws away the queued events that share no bit with the widened
event mask; if an event is left, it is removed from the queue, stored in the
record and `OK` is returned; otherwise the record is reset and `ERR` is
returned. -/
def ncurses_getmouse (event : MEVENT) : Driver → Driver × Int × MEVENT
  | .noMouse interval => (.noMouse interval, ERR, event)
  | .idle interval => (.idle interval, ERR, event)
  | .mouse mask interval queue =>
    match discardUnmatched (mouse_mask2 mask) queue with
    | [] => (.mouse mask interval [], ERR, ⟨INVALID_EVENT, 0, 0, 0, 0⟩)
    | e :: rest =>
      if ValidEvent e then (.mouse mask interval rest, OK, e)
      else (.mouse mask interval (e :: rest), ERR, ⟨INVALID_EVENT, 0, 0, 0, 0⟩)

/-- The executable driver model. -/
def ncurses : Curses Driver where
  mousemask := ncurses_mousemask
  mouseinterval := ncurses_mouseinterval
  getmouse := ncurses_getmouse

/-- Instrumentation of a driver: the same driver, with a counter of the
`getmouse` calls made so far. -/
def counting {σ : Type} (C : Curses σ) : Curses (σ × Nat) where
  mousemask := fun newmask s => (((C.mousemask newmask s.1).1, s.2), (C.mousemask newmask s.1).2)
  mouseinterval := fun erval s => (((C.mouseinterval erval s.1).1, s.2), (C.mouseinterval erval s.1).2)
  getmouse := fun event s => (((C.getmouse event s.1).1, s.2 + 1), (C.getmouse event s.1).2)

/-! ## The Lua state -/

/-- The C functions of `mouse.c` that are stored in Lua values. -/
inductive CFunction where
  | l_init
  | l_close
  | l_get_coords
deriving DecidableEq, Repr

/-- The Lua values the binding handles.  A table is a reference into the heap. -/
inductive Value where
  | integer (n : Int)
  | cfunction (f : CFunction)
  | table (ref : Nat)
deriving DecidableEq, Repr

/-- Contents of a table with string keys. -/
abbrev Table := List (String × Value)

/-- A Lua state: the stack of the running C function, bottom first (the top
of the stack is the last element), and the tables allocated so far. -/
structure LuaState where
  stack : List Value
  tables : List Table
deriving DecidableEq, Repr

/-- The assignment `t[k] = v` on table contents. -/
def Table.set (t : Table) (k : String) (v : Value) : Table :=
  t.filter (fun kv => kv.1 ≠ k) ++ [(k, v)]

/-- The value `t[k]`, when the key is present. -/
def Table.get? (t : Table) (k : String) : Option Value :=
  (t.find? (fun kv => kv.1 = k)).map Prod.snd

/-- The call `lua_pushinteger(L, n)`. -/
def lua_pushinteger (L : LuaState) (n : Int) : LuaState :=
  { L with stack := L.stack ++ [Value.integer n] }

/-- The call `lua_pushcfunction(L, f)`. -/
def lua_pushcfunction (L : LuaState) (f : CFunction) : LuaState :=
  { L with stack := L.stack ++ [Value.cfunction f] }

/-- The call `lua_newtable(L)`: allocates an empty table and pushes a
reference to it. -/
def lua_newtable (L : LuaState) : LuaState :=
  { stack := L.stack ++ [Value.table L.tables.length], tables := L.tables ++ [[]] }

/-- The value at a stack index: positive indices count from the bottom
(1 is the first element), negative ones from the top (-1 is the top). -/
def index2value (L : LuaState) (idx : Int) : Option Value :=
  if 0 < idx then L.stack[(idx - 1).toNat]?
  else if idx < 0 ∧ -idx ≤ L.stack.length then L.stack[L.stack.length - (-idx).toNat]?
  else none

/-- The call `lua_setfield(L, idx, k)`: does `t[k] = v`, where `t` is the
value at index `idx` and `v` the value on top of the stack, and pops `v`.
Fails (`none`) when the stack is empty or the indexed value is no table. -/
def lua_setfield (L : LuaState) (idx : Int) (k : String) : Option LuaState :=
  match index2value L idx, L.stack.getLast? with
  | some (Value.table ref), some v =>
    match L.tables[ref]? with
    | some t => some { stack := L.stack.dropLast, tables := L.tables.set ref (t.set k v) }
    | none => none
  | _, _ => none

/-! ## The functions of `mouse.c` -/

/-- What a `lua_CFunction` leaves behind: the driver state, the Lua state and
the returned `int`, the number of results. -/
structure Ret (σ : Type) where
  driver : σ
  lua : LuaState
  nresults : Nat
deriving DecidableEq, Repr

/-- The values a C function hands back to Lua: the top `nresults` stack
entries, the first result deepest. -/
def Ret.results {σ : Type} (r : Ret σ) : List Value :=
  r.lua.stack.drop (r.lua.stack.length - r.nresults)

/-- The function `l_init`. -/
def l_init {σ : Type} (C : Curses σ) (L : LuaState) (s : σ) : Ret σ :=
  let s1 := (C.mousemask BUTTON1_RELEASED s).1
  let s2 := (C.mouseinterval 0 s1).1
  ⟨s2, L, 0⟩

/-- The function `l_close`. -/
def l_close {σ : Type} (C : Curses σ) (L : LuaState) (s : σ) : Ret σ :=
  let s1 := (C.mousemask 0 s).1
  ⟨s1, L, 0⟩

/-- The function `l_get_coords`; `mouse_event` is the content of the
uninitialised local record when the function is entered. -/
def l_get_coords {σ : Type} (C : Curses σ) (L : LuaState) (s : σ) (mouse_event : MEVENT) :
    Ret σ :=
  match C.getmouse mouse_event s with
  | (s1, rc, mouse_event) =>
    if rc = OK ∧ mouse_event.bstate = BUTTON1_RELEASED then
      let L1 := lua_pushinteger L mouse_event.x
      let L2 := lua_pushinteger L1 mouse_event.y
      ⟨s1, L2, 2⟩
    else
      ⟨s1, L, 0⟩

/-- The function `luaopen_vinspect_mouse`: the Lua state after it and the
number of results, or `none` when a Lua call fails. -/
def luaopen_vinspect_mouse (L : LuaState) : Option (LuaState × Nat) := do
  let L1 := lua_newtable L
  let L2 := lua_pushinteger L1 KEY_MOUSE
  let L3 ← lua_setfield L2 (-2) "KEY_MOUSE"
  let L4 := lua_pushcfunction L3 CFunction.l_init
  let L5 ← lua_setfield L4 (-2) "init"
  let L6 := lua_pushcfunction L5 CFunction.l_close
  let L7 ← lua_setfield L6 (-2) "close"
  let L8 := lua_pushcfunction L7 CFunction.l_get_coords
  let L9 ← lua_setfield L8 (-2) "get_coords"
  pure (L9, 1)

/-- The table contents against which the result of `luaopen_vinspect_mouse`
is compared. -/
def moduleTable : Table :=
  [("KEY_MOUSE", Value.integer KEY_MOUSE),
   ("init", Value.cfunction CFunction.l_init),
   ("close", Value.cfunction CFunction.l_close),
   ("get_coords", Value.cfunction CFunction.l_get_coords)]

/-! ## Helper lemmas -/

theorem mousemask_reportable_BUTTON1_RELEASED :
    BUTTON1_RELEASED &&& (ALL_MOUSE_EVENTS ||| REPORT_MOUSE_POSITION) = BUTTON1_RELEASED := by
  decide

theorem list_set_length_append (ts : List Table) (t u : Table) :
    (ts ++ [t]).set ts.length u = ts ++ [u] := by
  induction ts with
  | nil => rfl
  | cons a ts ih => simp [List.set, ih]

theorem lua_setfield_top (s : List Value) (ts : List Table) (t : Table) (v : Value)
    (k : String) :
    lua_setfield ⟨s ++ [Value.table ts.length, v], ts ++ [t]⟩ (-2) k
      = some ⟨s ++ [Value.table ts.length], ts ++ [t.set k v]⟩ := by
  have h1 : index2value ⟨s ++ [Value.table ts.length, v], ts ++ [t]⟩ (-2)
      = some (Value.table ts.length) := by
    have hlen : (s ++ [Value.table ts.length, v]).length - (2 : Int).toNat = s.length := by
      simp
    have hget : (s ++ [Value.table ts.length, v])[s.length]? = some (Value.table ts.length) := by
      rw [List.getElem?_append_right (Nat.le_refl _)]
      simp
    simp only [index2value]
    rw [if_neg (by decide), if_pos (by simp), show (-(-2 : Int)) = 2 from rfl, hlen, hget]
  have h2 : (s ++ [Value.table ts.length, v]).getLast? = some v := by
    simp
  have h3 : (s ++ [Value.table ts.length, v]).dropLast = s ++ [Value.table ts.length] := by
    simp [List.dropLast_append_of_ne_nil]
  simp only [lua_setfield, h1, h2, h3]
  simp [list_set_length_append]

theorem luaopen_vinspect_mouse_eq (L : LuaState) :
    luaopen_vinspect_mouse L
      = some (⟨L.stack ++ [Value.table L.tables.length], L.tables ++ [moduleTable]⟩, 1) := by
  simp only [luaopen_vinspect_mouse, lua_newtable, lua_pushinteger, lua_pushcfunction,
    List.append_assoc, List.singleton_append, lua_setfield_top, Option.bind_eq_bind,
    Option.some_bind, Option.pure_def]
  rfl

theorem results_push2 {σ : Type} (s1 : σ) (L : LuaState) (a b : Int) :
    (Ret.mk s1 (lua_pushinteger (lua_pushinteger L a) b) 2).results
      = [Value.integer a, Value.integer b] := by
  simp [Ret.results, lua_pushinteger]

theorem results_zero {σ : Type} (s1 : σ) (L : LuaState) :
    (Ret.mk s1 L 0).results = [] := by
  simp [Ret.results]

theorem l_get_coords_of_read {σ : Type} (C : Curses σ) (L : LuaState) (s s1 : σ)
    (mouse_event e : MEVENT) (rc : Int) (hread : C.getmouse mouse_event s = (s1, rc, e)) :
    l_get_coords C L s mouse_event
      = if rc = OK ∧ e.bstate = BUTTON1_RELEASED then
          ⟨s1, lua_pushinteger (lua_pushinteger L e.x) e.y, 2⟩
        else ⟨s1, L, 0⟩ := by
  simp only [l_get_coords, hread]

theorem l_get_coords_driver {σ : Type} (C : Curses σ) (L : LuaState) (s : σ)
    (mouse_event : MEVENT) :
    (l_get_coords C L s mouse_event).driver = (C.getmouse mouse_event s).1 := by
  simp only [l_get_coords]
  split <;> rfl

theorem BUTTON1_RELEASED_ne_zero : BUTTON1_RELEASED ≠ 0 := by decide

theorem ncurses_getmouse_eventMask (event : MEVENT) (d : Driver) :
    (ncurses_getmouse event d).1.eventMask = d.eventMask := by
  cases d with
  | noMouse interval => rfl
  | idle interval => rfl
  | mouse mask interval queue =>
    simp only [ncurses_getmouse]
    split
    · rfl
    · split <;> rfl

theorem ncurses_getmouse_clickInterval (event : MEVENT) (d : Driver) :
    (ncurses_getmouse event d).1.clickInterval = d.clickInterval := by
  cases d with
  | noMouse interval => rfl
  | idle interval => rfl
  | mouse mask interval queue =>
    simp only [ncurses_getmouse]
    split
    · rfl
    · split <;> rfl

theorem ncurses_getmouse_head (event e : MEVENT) (mask : Nat) (interval : Int)
    (queue : List MEVENT) (hvalid : ValidEvent e = true)
    (hmatch : e.bstate &&& mouse_mask2 mask ≠ 0) :
    ncurses_getmouse event (Driver.mouse mask interval (e :: queue))
      = (Driver.mouse mask interval queue, OK, e) := by
  simp [ncurses_getmouse, discardUnmatched, hvalid, hmatch]

theorem l_close_ncurses_mask (L : LuaState) (d : Driver) :
    (l_close ncurses L d).driver.eventMask = 0 := by
  cases d <;> simp [l_close, ncurses, ncurses_mousemask, Driver.eventMask]

theorem l_close_ncurses_interval (L : LuaState) (d : Driver) :
    (l_close ncurses L d).driver.clickInterval = d.clickInterval := by
  cases d <;> simp [l_close, ncurses, ncurses_mousemask, Driver.clickInterval]

theorem l_init_ncurses_interval (L : LuaState) (d : Driver) :
    (l_init ncurses L d).driver.clickInterval = 0 := by
  cases d <;>
    simp [l_init, ncurses, ncurses_mousemask, ncurses_mouseinterval, Driver.clickInterval,
      BUTTON1_RELEASED_ne_zero]

/-! ## The claims -/

/-- C1: for every driver and every driver state in which the `getmouse` read
succeeds (returns `OK`) with an event `e` whose `bstate` equals
`BUTTON1_RELEASED` exactly, `l_get_coords` returns 2 and pushes first `e.x`,
then `e.y` onto the Lua stack, so that its results are `(e.x, e.y)` in that
order; nothing else on the Lua side changes. -/
theorem l_get_coords_button1_released {σ : Type} (C : Curses σ) (L : LuaState) (s s1 : σ)
    (mouse_event e : MEVENT)
    (hread : C.getmouse mouse_event s = (s1, OK, e))
    (hbstate : e.bstate = BUTTON1_RELEASED) :
    (l_get_coords C L s mouse_event).nresults = 2 ∧
    (l_get_coords C L s mouse_event).lua.stack
      = L.stack ++ [Value.integer e.x, Value.integer e.y] ∧
    (l_get_coords C L s mouse_event).lua.tables = L.tables ∧
    (l_get_coords C L s mouse_event).results = [Value.integer e.x, Value.integer e.y] := by
  rw [l_get_coords_of_read C L s s1 mouse_event e OK hread, if_pos ⟨rfl, hbstate⟩]
  refine ⟨rfl, ?_, rfl, results_push2 s1 L e.x e.y⟩
  simp [lua_pushinteger]

/-- Witness of C1: a primary-button release queued at (12, 4) is returned as
the two values 12 and 4. -/
theorem l_get_coords_button1_released_witness :
    ncurses.getmouse ⟨0, 0, 0, 0, 0⟩
        (Driver.mouse BUTTON1_RELEASED 0 [⟨0, 12, 4, 0, BUTTON1_RELEASED⟩])
      = (Driver.mouse BUTTON1_RELEASED 0 [], OK, ⟨0, 12, 4, 0, BUTTON1_RELEASED⟩) ∧
    (l_get_coords ncurses ⟨[], []⟩
        (Driver.mouse BUTTON1_RELEASED 0 [⟨0, 12, 4, 0, BUTTON1_RELEASED⟩])
        ⟨0, 0, 0, 0, 0⟩).results = [Value.integer 12, Value.integer 4] :=
  ⟨rfl,
   (l_get_coords_button1_released ncurses ⟨[], []⟩
      (Driver.mouse BUTTON1_RELEASED 0 [⟨0, 12, 4, 0, BUTTON1_RELEASED⟩])
      (Driver.mouse BUTTON1_RELEASED 0 []) ⟨0, 0, 0, 0, 0⟩
      ⟨0, 12, 4, 0, BUTTON1_RELEASED⟩ rfl rfl).2.2.2⟩

/-- C2: for every driver and every successfully read event `e` whose `bstate`
differs from `BUTTON1_RELEASED` (a bitmask that contains the
`BUTTON1_RELEASED` bit and another bit is such a value), `l_get_coords`
returns 0 and leaves the Lua state as it was: the test is equality of the
bitmask, not a bit test. -/
theorem l_get_coords_other_bstate {σ : Type} (C : Curses σ) (L : LuaState) (s s1 : σ)
    (mouse_event e : MEVENT)
    (hread : C.getmouse mouse_event s = (s1, OK, e))
    (hbstate : e.bstate ≠ BUTTON1_RELEASED) :
    (l_get_coords C L s mouse_event).nresults = 0 ∧
    (l_get_coords C L s mouse_event).lua = L ∧
    (l_get_coords C L s mouse_event).results = [] := by
  rw [l_get_coords_of_read C L s s1 mouse_event e OK hread,
    if_neg (fun h => hbstate h.2)]
  exact ⟨rfl, rfl, results_zero s1 L⟩

/-- Witness of C2: a primary-button release with the shift modifier, whose
bitmask passes the bit test for `BUTTON1_RELEASED`, yields no value. -/
theorem l_get_coords_other_bstate_witness :
    (BUTTON1_RELEASED ||| BUTTON_SHIFT) &&& BUTTON1_RELEASED = BUTTON1_RELEASED ∧
    BUTTON1_RELEASED ||| BUTTON_SHIFT ≠ BUTTON1_RELEASED ∧
    (l_get_coords ncurses ⟨[], []⟩
        (Driver.mouse BUTTON1_RELEASED 0 [⟨0, 12, 4, 0, BUTTON1_RELEASED ||| BUTTON_SHIFT⟩])
        ⟨0, 0, 0, 0, 0⟩).nresults = 0 ∧
    (l_get_coords ncurses ⟨[], []⟩
        (Driver.mouse BUTTON1_RELEASED 0 [⟨0, 12, 4, 0, BUTTON1_RELEASED ||| BUTTON_SHIFT⟩])
        ⟨0, 0, 0, 0, 0⟩).lua = ⟨[], []⟩ ∧
    (l_get_coords ncurses ⟨[], []⟩
        (Driver.mouse BUTTON1_RELEASED 0 [⟨0, 12, 4, 0, BUTTON1_RELEASED ||| BUTTON_SHIFT⟩])
        ⟨0, 0, 0, 0, 0⟩).results = [] :=
  ⟨by decide, by decide,
   l_get_coords_other_bstate ncurses ⟨[], []⟩
      (Driver.mouse BUTTON1_RELEASED 0 [⟨0, 12, 4, 0, BUTTON1_RELEASED ||| BUTTON_SHIFT⟩])
      (Driver.mouse BUTTON1_RELEASED 0 []) ⟨0, 0, 0, 0, 0⟩
      ⟨0, 12, 4, 0, BUTTON1_RELEASED ||| BUTTON_SHIFT⟩ rfl (by decide)⟩

/-- C3: for every driver and every driver state in which the `getmouse` read
fails (its result `rc` is not `OK`), `l_get_coords` returns 0, pushes nothing
and leaves the Lua state as it was, whatever the record holds before
(`mouse_event`) and after (`e`) the call.  The Lua state, the number of
results and the results are those of every call that reads, with success, an
event `e2` whose bitmask is not `BUTTON1_RELEASED`. -/
theorem l_get_coords_read_failure {σ : Type} (C : Curses σ) (L : LuaState) (s s1 : σ)
    (mouse_event e : MEVENT) (rc : Int)
    (hread : C.getmouse mouse_event s = (s1, rc, e))
    (hfail : rc ≠ OK) :
    (l_get_coords C L s mouse_event).nresults = 0 ∧
    (l_get_coords C L s mouse_event).lua = L ∧
    (l_get_coords C L s mouse_event).results = [] ∧
    ∀ (t t1 : σ) (mouse_event2 e2 : MEVENT),
      C.getmouse mouse_event2 t = (t1, OK, e2) → e2.bstate ≠ BUTTON1_RELEASED →
      (l_get_coords C L s mouse_event).nresults = (l_get_coords C L t mouse_event2).nresults ∧
      (l_get_coords C L s mouse_event).lua = (l_get_coords C L t mouse_event2).lua ∧
      (l_get_coords C L s mouse_event).results
        = (l_get_coords C L t mouse_event2).results := by
  rw [l_get_coords_of_read C L s s1 mouse_event e rc hread, if_neg (fun h => hfail h.1)]
  refine ⟨rfl, rfl, results_zero s1 L, ?_⟩
  intro t t1 mouse_event2 e2 hread2 hbstate2
  rw [l_get_coords_of_read C L t t1 mouse_event2 e2 OK hread2,
    if_neg (fun h => hbstate2 h.2)]
  exact ⟨rfl, rfl, by rw [results_zero, results_zero]⟩

/-- Witness of C3.  On a terminal without mouse support the read fails and
leaves the record as it was, here with `BUTTON1_RELEASED` in its `bstate`:
nothing is returned.  With a mouse and an empty queue the read fails and
resets the record: nothing is returned, and the outcome is that of reading a
release of the primary button with the shift modifier. -/
theorem l_get_coords_read_failure_witness :
    (ncurses.getmouse ⟨77, 7, 9, 3, BUTTON1_RELEASED⟩ (Driver.noMouse DEFAULT_MAXCLICK)
        = (Driver.noMouse DEFAULT_MAXCLICK, ERR, ⟨77, 7, 9, 3, BUTTON1_RELEASED⟩) ∧
      ERR ≠ OK ∧
      (l_get_coords ncurses ⟨[Value.integer 5], []⟩ (Driver.noMouse DEFAULT_MAXCLICK)
        ⟨77, 7, 9, 3, BUTTON1_RELEASED⟩).nresults = 0 ∧
      (l_get_coords ncurses ⟨[Value.integer 5], []⟩ (Driver.noMouse DEFAULT_MAXCLICK)
        ⟨77, 7, 9, 3, BUTTON1_RELEASED⟩).lua = ⟨[Value.integer 5], []⟩) ∧
    (ncurses.getmouse ⟨77, 7, 9, 3, BUTTON1_RELEASED⟩ (Driver.mouse BUTTON1_RELEASED 0 [])
        = (Driver.mouse BUTTON1_RELEASED 0 [], ERR, ⟨INVALID_EVENT, 0, 0, 0, 0⟩) ∧
      ncurses.getmouse ⟨77, 7, 9, 3, BUTTON1_RELEASED⟩
          (Driver.mouse BUTTON1_RELEASED 0 [⟨0, 1, 2, 0, BUTTON1_RELEASED ||| BUTTON_SHIFT⟩])
        = (Driver.mouse BUTTON1_RELEASED 0 [], OK,
            ⟨0, 1, 2, 0, BUTTON1_RELEASED ||| BUTTON_SHIFT⟩) ∧
      BUTTON1_RELEASED ||| BUTTON_SHIFT ≠ BUTTON1_RELEASED ∧
      (l_get_coords ncurses ⟨[Value.integer 5], []⟩ (Driver.mouse BUTTON1_RELEASED 0 [])
        ⟨77, 7, 9, 3, BUTTON1_RELEASED⟩).results = [] ∧
      (l_get_coords ncurses ⟨[Value.integer 5], []⟩ (Driver.mouse BUTTON1_RELEASED 0 [])
        ⟨77, 7, 9, 3, BUTTON1_RELEASED⟩).lua
        = (l_get_coords ncurses ⟨[Value.integer 5], []⟩
            (Driver.mouse BUTTON1_RELEASED 0
              [⟨0, 1, 2, 0, BUTTON1_RELEASED ||| BUTTON_SHIFT⟩])
            ⟨77, 7, 9, 3, BUTTON1_RELEASED⟩).lua) :=
  ⟨⟨rfl, by decide,
    (l_get_coords_read_failure ncurses ⟨[Value.integer 5], []⟩
      (Driver.noMouse DEFAULT_MAXCLICK) (Driver.noMouse DEFAULT_MAXCLICK)
      ⟨77, 7, 9, 3, BUTTON1_RELEASED⟩ ⟨77, 7, 9, 3, BUTTON1_RELEASED⟩ ERR rfl (by decide)).1,
    (l_get_coords_read_failure ncurses ⟨[Value.integer 5], []⟩
      (Driver.noMouse DEFAULT_MAXCLICK) (Driver.noMouse DEFAULT_MAXCLICK)
      ⟨77, 7, 9, 3, BUTTON1_RELEASED⟩ ⟨77, 7, 9, 3, BUTTON1_RELEASED⟩ ERR rfl
      (by decide)).2.1⟩,
   ⟨rfl, rfl, by decide,
    (l_get_coords_read_failure ncurses ⟨[Value.integer 5], []⟩
      (Driver.mouse BUTTON1_RELEASED 0 []) (Driver.mouse BUTTON1_RELEASED 0 [])
      ⟨77, 7, 9, 3, BUTTON1_RELEASED⟩ ⟨INVALID_EVENT, 0, 0, 0, 0⟩ ERR rfl (by decide)).2.2.1,
    ((l_get_coords_read_failure ncurses ⟨[Value.integer 5], []⟩
      (Driver.mouse BUTTON1_RELEASED 0 []) (Driver.mouse BUTTON1_RELEASED 0 [])
      ⟨77, 7, 9, 3, BUTTON1_RELEASED⟩ ⟨INVALID_EVENT, 0, 0, 0, 0⟩ ERR rfl (by decide)).2.2.2
      (Driver.mouse BUTTON1_RELEASED 0 [⟨0, 1, 2, 0, BUTTON1_RELEASED ||| BUTTON_SHIFT⟩])
      (Driver.mouse BUTTON1_RELEASED 0 [])
      ⟨77, 7, 9, 3, BUTTON1_RELEASED⟩ ⟨0, 1, 2, 0, BUTTON1_RELEASED ||| BUTTON_SHIFT⟩
      rfl (by decide)).2.1⟩⟩

/-- C4, as stated, fails: on a driver without mouse support the `mousemask`
call of `l_init` fails (it returns 0), its result is not looked at, and after
`l_init` the event mask is 0, not `BUTTON1_RELEASED`. -/
theorem l_init_noMouse_mask_unset :
    (ncurses.mousemask BUTTON1_RELEASED (Driver.noMouse DEFAULT_MAXCLICK)).2 = 0 ∧
    (l_init ncurses ⟨[], []⟩ (Driver.noMouse DEFAULT_MAXCLICK)).driver.eventMask = 0 ∧
    (l_init ncurses ⟨[], []⟩ (Driver.noMouse DEFAULT_MAXCLICK)).driver.eventMask
      ≠ BUTTON1_RELEASED := by
  decide

/-- C4, amended: for every prior driver state in which the `mousemask` call of
`l_init` succeeds (returns a mask that is not 0), after `l_init` the event
mask is exactly `BUTTON1_RELEASED` and the click interval is 0; the pending
events are untouched. -/
theorem l_init_config_of_mousemask_success (L : LuaState) (d : Driver)
    (hsuccess : (ncurses.mousemask BUTTON1_RELEASED d).2 ≠ 0) :
    (l_init ncurses L d).driver.eventMask = BUTTON1_RELEASED ∧
    (l_init ncurses L d).driver.clickInterval = 0 ∧
    (l_init ncurses L d).driver.pending = d.pending := by
  cases d with
  | noMouse interval => exact absurd rfl hsuccess
  | idle interval =>
    refine ⟨?_, l_init_ncurses_interval L _, ?_⟩
    · simp only [l_init, ncurses, ncurses_mousemask, if_neg BUTTON1_RELEASED_ne_zero,
        ncurses_mouseinterval, Driver.eventMask]
      exact mousemask_reportable_BUTTON1_RELEASED
    · simp only [l_init, ncurses, ncurses_mousemask, if_neg BUTTON1_RELEASED_ne_zero,
        ncurses_mouseinterval, Driver.pending]
  | mouse mask interval queue =>
    refine ⟨?_, l_init_ncurses_interval L _, rfl⟩
    exact mousemask_reportable_BUTTON1_RELEASED

/-- Witness of C4, amended: a working driver reporting every event with the
default click interval reports primary-button releases only, with click
interval 0, after `l_init`. -/
theorem l_init_config_of_mousemask_success_witness :
    (ncurses.mousemask BUTTON1_RELEASED (Driver.mouse ALL_MOUSE_EVENTS DEFAULT_MAXCLICK [])).2
      ≠ 0 ∧
    (l_init ncurses ⟨[], []⟩ (Driver.mouse ALL_MOUSE_EVENTS DEFAULT_MAXCLICK [])).driver.eventMask
      = BUTTON1_RELEASED ∧
    (l_init ncurses ⟨[], []⟩
      (Driver.mouse ALL_MOUSE_EVENTS DEFAULT_MAXCLICK [])).driver.clickInterval = 0 ∧
    (l_init ncurses ⟨[], []⟩ (Driver.mouse ALL_MOUSE_EVENTS DEFAULT_MAXCLICK [])).driver.pending
      = (Driver.mouse ALL_MOUSE_EVENTS DEFAULT_MAXCLICK []).pending :=
  ⟨by decide,
   l_init_config_of_mousemask_success ⟨[], []⟩
     (Driver.mouse ALL_MOUSE_EVENTS DEFAULT_MAXCLICK []) (by decide)⟩

/-- C5: for every prior driver state, after `l_close` the event mask is 0; a
state whose mask is 0 already is left as it is; `l_close` returns 0 and does
not touch the Lua state. -/
theorem l_close_mask_zero (L : LuaState) (d : Driver) :
    (l_close ncurses L d).driver.eventMask = 0 ∧
    (d.eventMask = 0 → (l_close ncurses L d).driver = d) ∧
    (l_close ncurses L d).nresults = 0 ∧
    (l_close ncurses L d).lua = L := by
  refine ⟨l_close_ncurses_mask L d, ?_, rfl, rfl⟩
  cases d with
  | noMouse interval => intro _; rfl
  | idle interval => intro _; rfl
  | mouse mask interval queue =>
    intro h
    simp only [Driver.eventMask] at h
    subst h
    simp [l_close, ncurses, ncurses_mousemask]

/-- Witness of C5: `l_close` on a driver whose mask is 0 already leaves it as
it is, with mask 0. -/
theorem l_close_mask_zero_witness :
    (l_close ncurses ⟨[], []⟩ (Driver.mouse 0 DEFAULT_MAXCLICK [])).driver.eventMask = 0 ∧
    (l_close ncurses ⟨[], []⟩ (Driver.mouse 0 DEFAULT_MAXCLICK [])).driver
      = Driver.mouse 0 DEFAULT_MAXCLICK [] :=
  ⟨(l_close_mask_zero ⟨[], []⟩ (Driver.mouse 0 DEFAULT_MAXCLICK [])).1,
   (l_close_mask_zero ⟨[], []⟩ (Driver.mouse 0 DEFAULT_MAXCLICK [])).2.1 rfl⟩

/-- C6, as stated, fails: starting from the default configuration, `l_init`
followed by `l_close` ends with click interval 0, not the default one, so the
configuration is not the default configuration. -/
theorem l_close_after_l_init_not_default :
    isDefaultConfig (Driver.mouse 0 DEFAULT_MAXCLICK []) ∧
    (l_close ncurses ⟨[], []⟩
      (l_init ncurses ⟨[], []⟩ (Driver.mouse 0 DEFAULT_MAXCLICK [])).driver).driver.clickInterval
      = 0 ∧
    ¬ isDefaultConfig (l_close ncurses ⟨[], []⟩
      (l_init ncurses ⟨[], []⟩ (Driver.mouse 0 DEFAULT_MAXCLICK [])).driver).driver := by
  decide

/-- C6, amended: for every driver state, `l_close` clears the event mask and
leaves the click interval and the pending events as they were; the state
after it is the default configuration exactly when the click interval was the
default one before, and after `l_init` followed by `l_close` the click
interval is 0, the value `l_init` set. -/
theorem l_close_clears_mask_only (L L1 : LuaState) (d : Driver) :
    (l_close ncurses L d).driver.eventMask = 0 ∧
    (l_close ncurses L d).driver.clickInterval = d.clickInterval ∧
    (l_close ncurses L d).driver.pending = d.pending ∧
    (isDefaultConfig (l_close ncurses L d).driver ↔ d.clickInterval = DEFAULT_MAXCLICK) ∧
    (l_close ncurses L (l_init ncurses L1 d).driver).driver.clickInterval = 0 := by
  refine ⟨l_close_ncurses_mask L d, l_close_ncurses_interval L d, ?_, ?_, ?_⟩
  · cases d <;> rfl
  · simp only [isDefaultConfig, l_close_ncurses_mask, l_close_ncurses_interval, true_and]
  · rw [l_close_ncurses_interval, l_init_ncurses_interval]

/-- C7: `l_init` is idempotent on the driver state: for every driver state,
the state after two calls of `l_init` in a row is the state after one, and so
are the event mask and the click interval. -/
theorem l_init_idempotent (L L1 : LuaState) (d : Driver) :
    (l_init ncurses L1 (l_init ncurses L d).driver).driver = (l_init ncurses L d).driver ∧
    (l_init ncurses L1 (l_init ncurses L d).driver).driver.eventMask
      = (l_init ncurses L d).driver.eventMask ∧
    (l_init ncurses L1 (l_init ncurses L d).driver).driver.clickInterval
      = (l_init ncurses L d).driver.clickInterval := by
  have h : (l_init ncurses L1 (l_init ncurses L d).driver).driver
      = (l_init ncurses L d).driver := by
    cases d <;>
      simp [l_init, ncurses, ncurses_mousemask, ncurses_mouseinterval,
        BUTTON1_RELEASED_ne_zero]
  exact ⟨h, by rw [h], by rw [h]⟩

/-- C8: `l_init` and `l_close` never signal failure: for every driver, that
is for every behaviour of the `mousemask` and `mouseinterval` calls and every
value they return, and for every driver state, each returns 0, has no result
and leaves the Lua state as it was. -/
theorem l_init_l_close_never_fail {σ : Type} (C : Curses σ) (L : LuaState) (s : σ) :
    (l_init C L s).nresults = 0 ∧ (l_init C L s).lua = L ∧ (l_init C L s).results = [] ∧
    (l_close C L s).nresults = 0 ∧ (l_close C L s).lua = L ∧ (l_close C L s).results = [] :=
  ⟨rfl, rfl, results_zero _ L, rfl, rfl, results_zero _ L⟩

/-- C9: there is one table content `t`, with exactly the keys `KEY_MOUSE`,
`init`, `close` and `get_coords`, mapped to the integer `KEY_MOUSE` and to
the functions `l_init`, `l_close` and `l_get_coords`, such that for every
Lua state (so also the one an earlier load left) `luaopen_vinspect_mouse`
succeeds, returns 1 and pushes one value, a reference that no table had
before (a fresh table), whose content is `t`; the tables that existed stay
as they were.  The function takes no driver state. -/
theorem luaopen_vinspect_mouse_table :
    ∃ t : Table,
      t.map Prod.fst = ["KEY_MOUSE", "init", "close", "get_coords"] ∧
      t.get? "KEY_MOUSE" = some (Value.integer KEY_MOUSE) ∧
      t.get? "init" = some (Value.cfunction CFunction.l_init) ∧
      t.get? "close" = some (Value.cfunction CFunction.l_close) ∧
      t.get? "get_coords" = some (Value.cfunction CFunction.l_get_coords) ∧
      ∀ L : LuaState,
        L.tables[L.tables.length]? = none ∧
        luaopen_vinspect_mouse L
          = some (⟨L.stack ++ [Value.table L.tables.length], L.tables ++ [t]⟩, 1) ∧
        (L.tables ++ [t])[L.tables.length]? = some t ∧
        (Ret.mk () (LuaState.mk (L.stack ++ [Value.table L.tables.length]) (L.tables ++ [t]))
          1).results = [Value.table L.tables.length] :=
  ⟨moduleTable, by decide, by decide, by decide, by decide, by decide,
   fun L => ⟨by simp, luaopen_vinspect_mouse_eq L, by simp, by simp [Ret.results]⟩⟩

/-- Witness of C9: loading twice in a row gives two tables, at references 0
and 1, with the same content, `KEY_MOUSE` being 409 in both. -/
theorem luaopen_vinspect_mouse_table_witness :
    luaopen_vinspect_mouse ⟨[], []⟩ = some (⟨[Value.table 0], [moduleTable]⟩, 1) ∧
    luaopen_vinspect_mouse ⟨[Value.table 0], [moduleTable]⟩
      = some (⟨[Value.table 0, Value.table 1], [moduleTable, moduleTable]⟩, 1) ∧
    moduleTable.get? "KEY_MOUSE" = some (Value.integer 409) := by
  decide

/-- C10: one call of `l_get_coords` reads the event queue exactly once, for
every driver: on a driver that counts its `getmouse` calls the count goes up
by one, and the driver state after the call is the state after one
`getmouse`.  On the driver model the event mask and the click interval are
unchanged.  For every driver, an event `e` that is read with success and
whose bitmask is not `BUTTON1_RELEASED` is consumed all the same: the driver
is left in the state `s1` after the read, nothing is returned, and a
following call is a call on `s1`.  On the driver model, an event at the head
of the queue that the event mask lets through is the event read; after the
call the queue is the rest, whether the event passes the equality test or
not, and a following call works on the rest. -/
theorem l_get_coords_single_read {σ : Type} (C : Curses σ) (s : σ) (n : Nat)
    (L L1 : LuaState) (mouse_event mouse_event1 e : MEVENT) (d : Driver)
    (mask : Nat) (interval : Int) (queue : List MEVENT) :
    (l_get_coords (counting C) L (s, n) mouse_event).driver.2 = n + 1 ∧
    (l_get_coords (counting C) L (s, n) mouse_event).driver.1
      = (l_get_coords C L s mouse_event).driver ∧
    (l_get_coords C L s mouse_event).driver = (C.getmouse mouse_event s).1 ∧
    (l_get_coords ncurses L d mouse_event).driver.eventMask = d.eventMask ∧
    (l_get_coords ncurses L d mouse_event).driver.clickInterval = d.clickInterval ∧
    (∀ s1 : σ, C.getmouse mouse_event s = (s1, OK, e) → e.bstate ≠ BUTTON1_RELEASED →
      (l_get_coords C L s mouse_event).driver = s1 ∧
      (l_get_coords C L s mouse_event).results = [] ∧
      (l_get_coords C L s mouse_event).lua = L ∧
      l_get_coords C L1 (l_get_coords C L s mouse_event).driver mouse_event1
        = l_get_coords C L1 s1 mouse_event1) ∧
    (ValidEvent e = true → e.bstate &&& mouse_mask2 mask ≠ 0 →
      ncurses.getmouse mouse_event (Driver.mouse mask interval (e :: queue))
        = (Driver.mouse mask interval queue, OK, e) ∧
      (l_get_coords ncurses L (Driver.mouse mask interval (e :: queue)) mouse_event).driver
        = Driver.mouse mask interval queue ∧
      (l_get_coords ncurses L (Driver.mouse mask interval (e :: queue)) mouse_event).results
        = (if e.bstate = BUTTON1_RELEASED then [Value.integer e.x, Value.integer e.y]
           else []) ∧
      l_get_coords ncurses L1
          (l_get_coords ncurses L (Driver.mouse mask interval (e :: queue)) mouse_event).driver
          mouse_event1
        = l_get_coords ncurses L1 (Driver.mouse mask interval queue) mouse_event1) := by
  refine ⟨?_, ?_, l_get_coords_driver C L s mouse_event, ?_, ?_, ?_, ?_⟩
  · rw [l_get_coords_driver]; rfl
  · rw [l_get_coords_driver, l_get_coords_driver]; rfl
  · rw [l_get_coords_driver]; exact ncurses_getmouse_eventMask mouse_event d
  · rw [l_get_coords_driver]; exact ncurses_getmouse_clickInterval mouse_event d
  · intro s1 hread hbstate
    have hdrv : (l_get_coords C L s mouse_event).driver = s1 := by
      rw [l_get_coords_driver, hread]
    refine ⟨hdrv, ?_, ?_, by rw [hdrv]⟩
    · rw [l_get_coords_of_read C L s s1 mouse_event e OK hread,
        if_neg (fun h => hbstate h.2), results_zero]
    · rw [l_get_coords_of_read C L s s1 mouse_event e OK hread,
        if_neg (fun h => hbstate h.2)]
  · intro hvalid hmatch
    have hhead : ncurses.getmouse mouse_event (Driver.mouse mask interval (e :: queue))
        = (Driver.mouse mask interval queue, OK, e) :=
      ncurses_getmouse_head mouse_event e mask interval queue hvalid hmatch
    have hdrv : (l_get_coords ncurses L (Driver.mouse mask interval (e :: queue))
        mouse_event).driver = Driver.mouse mask interval queue := by
      rw [l_get_coords_driver, hhead]
    refine ⟨hhead, hdrv, ?_, by rw [hdrv]⟩
    rw [l_get_coords_of_read ncurses L _ _ mouse_event e OK hhead]
    by_cases hb : e.bstate = BUTTON1_RELEASED
    · rw [if_pos ⟨rfl, hb⟩, if_pos hb, results_push2]
    · rw [if_neg (fun h => hb h.2), if_neg hb, results_zero]

/-- Witness of C10: with a shift-modified release at (1, 2) queued in front
of a plain release at (12, 4), the first call reads the first event, returns
nothing and leaves the plain release queued; the second call returns
(12, 4); the first call is one `getmouse` call. -/
theorem l_get_coords_single_read_witness :
    (ValidEvent ⟨0, 1, 2, 0, BUTTON1_RELEASED ||| BUTTON_SHIFT⟩ = true ∧
      (BUTTON1_RELEASED ||| BUTTON_SHIFT) &&& mouse_mask2 BUTTON1_RELEASED ≠ 0 ∧
      BUTTON1_RELEASED ||| BUTTON_SHIFT ≠ BUTTON1_RELEASED) ∧
    (l_get_coords ncurses ⟨[], []⟩
      (Driver.mouse BUTTON1_RELEASED 0
        [⟨0, 1, 2, 0, BUTTON1_RELEASED ||| BUTTON_SHIFT⟩, ⟨0, 12, 4, 0, BUTTON1_RELEASED⟩])
      ⟨77, 7, 9, 3, 0⟩).results = [] ∧
    (l_get_coords ncurses ⟨[], []⟩
      (Driver.mouse BUTTON1_RELEASED 0
        [⟨0, 1, 2, 0, BUTTON1_RELEASED ||| BUTTON_SHIFT⟩, ⟨0, 12, 4, 0, BUTTON1_RELEASED⟩])
      ⟨77, 7, 9, 3, 0⟩).driver
      = Driver.mouse BUTTON1_RELEASED 0 [⟨0, 12, 4, 0, BUTTON1_RELEASED⟩] ∧
    (l_get_coords ncurses ⟨[], []⟩
      (l_get_coords ncurses ⟨[], []⟩
        (Driver.mouse BUTTON1_RELEASED 0
          [⟨0, 1, 2, 0, BUTTON1_RELEASED ||| BUTTON_SHIFT⟩, ⟨0, 12, 4, 0, BUTTON1_RELEASED⟩])
        ⟨77, 7, 9, 3, 0⟩).driver
      ⟨77, 7, 9, 3, 0⟩).results = [Value.integer 12, Value.integer 4] ∧
    (l_get_coords (counting ncurses) ⟨[], []⟩
      (Driver.mouse BUTTON1_RELEASED 0
        [⟨0, 1, 2, 0, BUTTON1_RELEASED ||| BUTTON_SHIFT⟩, ⟨0, 12, 4, 0, BUTTON1_RELEASED⟩], 0)
      ⟨77, 7, 9, 3, 0⟩).driver.2 = 1 :=
  ⟨⟨by decide, by decide, by decide⟩,
   ((l_get_coords_single_read ncurses
      (Driver.mouse BUTTON1_RELEASED 0
        [⟨0, 1, 2, 0, BUTTON1_RELEASED ||| BUTTON_SHIFT⟩, ⟨0, 12, 4, 0, BUTTON1_RELEASED⟩])
      0 ⟨[], []⟩ ⟨[], []⟩
      ⟨77, 7, 9, 3, 0⟩ ⟨77, 7, 9, 3, 0⟩ ⟨0, 1, 2, 0, BUTTON1_RELEASED ||| BUTTON_SHIFT⟩
      (Driver.noMouse 0) BUTTON1_RELEASED 0 [⟨0, 12, 4, 0, BUTTON1_RELEASED⟩]).2.2.2.2.2.1
      (Driver.mouse BUTTON1_RELEASED 0 [⟨0, 12, 4, 0, BUTTON1_RELEASED⟩]) rfl (by decide)).2.1,
   ((l_get_coords_single_read ncurses
      (Driver.mouse BUTTON1_RELEASED 0
        [⟨0, 1, 2, 0, BUTTON1_RELEASED ||| BUTTON_SHIFT⟩, ⟨0, 12, 4, 0, BUTTON1_RELEASED⟩])
      0 ⟨[], []⟩ ⟨[], []⟩
      ⟨77, 7, 9, 3, 0⟩ ⟨77, 7, 9, 3, 0⟩ ⟨0, 1, 2, 0, BUTTON1_RELEASED ||| BUTTON_SHIFT⟩
      (Driver.noMouse 0) BUTTON1_RELEASED 0 [⟨0, 12, 4, 0, BUTTON1_RELEASED⟩]).2.2.2.2.2.2
      (by decide) (by decide)).2.1,
   by decide, by decide⟩

end Vinspect
